import Mathlib

/-!
Shallow embedding of `keep/providers/postgres_provider/postgres_provider.py`.

The adapter wraps psycopg2: it validates a configuration mapping into a
`PostgresProviderAuthConfig`, and on each `query`/`notify` call opens a fresh
connection, executes the supplied SQL, and closes the connection.  External
effects (the psycopg2 driver and the network) are modelled by an oracle
`DBWorld` that fixes the outcome of `connect` and of executing each SQL
string.  Python exceptions are modelled with `Except PyError`; the mutable
adapter object is threaded explicitly.
-/

/-- A result row as returned by the server: the tuple of column values, in the
server's column order.  Row contents are opaque to the adapter. -/
abbrev Row := List String

/-- Python exceptions that the adapter's code paths can raise.  All of these
derive from Python's `Exception`, so a bare `except Exception` catches each. -/
inductive PyError where
  /-- `ValueError`, raised by the `if not query` precondition check. -/
  | valueError (msg : String) : PyError
  /-- `TypeError`, raised by the generated dataclass `__init__` when a
  required field is missing from the keyword mapping. -/
  | typeError (msg : String) : PyError
  /-- `AttributeError`, e.g. calling a method on `None`. -/
  | attributeError (msg : String) : PyError
  /-- `psycopg2.OperationalError` and kin: connect or execute failures. -/
  | operationalError (msg : String) : PyError
  /-- `psycopg2.InterfaceError`: using a closed connection. -/
  | interfaceError (msg : String) : PyError
  deriving DecidableEq, Repr

/-- The authentication mapping `config.authentication` passed as keyword
arguments to the `PostgresProviderAuthConfig` constructor.  For each key,
`none` means the key is absent from the mapping.  The `database` and `port`
fields are annotated `str | None` in the source, so a present key carries an
`Option String` value (`none` standing for Python `None`). -/
structure AuthMapping where
  username : Option String
  password : Option String
  host : Option String
  database : Option (Option String)
  port : Option (Option String)
  deriving DecidableEq, Repr

/-- The pydantic dataclass `PostgresProviderAuthConfig`:
`username`, `password`, `host` are `str` fields without defaults;
`database` is a `str | None` field without a default;
`port` is a `str | None` field with default `"5432"`. -/
structure PostgresProviderAuthConfig where
  username : String
  password : String
  host : String
  database : Option String
  port : Option String
  deriving DecidableEq, Repr

/-- The generated dataclass constructor applied to a keyword mapping,
`PostgresProviderAuthConfig(**mapping)`.  Fields declared without a default
(`username`, `password`, `host`, and also `database`, whose
`dataclasses.field` call sets only `metadata`, no `default`) are required
positional arguments of the generated `__init__`; a missing one raises
`TypeError`.  `port` defaults to `"5432"` when absent.  String values are
stored verbatim: pydantic checks types, not non-emptiness. -/
def PostgresProviderAuthConfig.ofMapping (m : AuthMapping) :
    Except PyError PostgresProviderAuthConfig :=
  match m.username, m.password, m.host, m.database with
  | some u, some p, some h, some d =>
      .ok { username := u, password := p, host := h, database := d,
            port := m.port.getD (some "5432") }
  | _, _, _, _ =>
      .error (.typeError "__init__ missing required positional arguments")

/-- The state of one psycopg2 connection object: whether `close()` has been
called on it, and how many times `commit()` has been called on it.
`close()` on an already-closed connection is a no-op in psycopg2. -/
structure ConnState where
  isClosed : Bool
  commitCount : Nat
  deriving DecidableEq, Repr

/-- `connection.close()`: marks the connection closed; idempotent. -/
def ConnState.close (c : ConnState) : ConnState :=
  { c with isClosed := true }

/-- `connection.commit()`: raises `InterfaceError` on a closed connection,
otherwise records one commit. -/
def ConnState.commit (c : ConnState) : Except PyError ConnState :=
  if c.isClosed then .error (.interfaceError "connection already closed")
  else .ok { c with commitCount := c.commitCount + 1 }

/-- Oracle for the external world: the outcome of `psycopg2.connect` with
given credentials, and the outcome (error or fetched row list) of executing
each SQL string on a fresh connection. -/
structure DBWorld where
  connect : PostgresProviderAuthConfig → Except String Unit
  execute : String → Except String (List Row)

/-- The adapter object `PostgresProvider`: `provider_id` and `config` from
`__init__`, `authentication_config` set by `validate_config` (`none` while
the attribute is still unset), and `self.conn`, set to `None` in `__init__`
and overwritten by `__init_connection` on each call. -/
structure PostgresProvider where
  provider_id : String
  config : AuthMapping
  authentication_config : Option PostgresProviderAuthConfig
  conn : Option ConnState
  deriving DecidableEq, Repr

/-- `PostgresProvider.__init__`: stores the id and config and sets
`self.conn = None`. -/
def PostgresProvider.construct (provider_id : String) (config : AuthMapping) :
    PostgresProvider :=
  { provider_id := provider_id, config := config,
    authentication_config := none, conn := none }

/-- `PostgresProvider.validate_config`: builds the auth dataclass from the
authentication mapping and stores it on the adapter.  A constructor failure
propagates and leaves the adapter unchanged.  No `DBWorld` is consulted:
validation performs no network activity. -/
def PostgresProvider.validate_config (self : PostgresProvider) :
    Except PyError PostgresProvider :=
  match PostgresProviderAuthConfig.ofMapping self.config with
  | .error e => .error e
  | .ok ac => .ok { self with authentication_config := some ac }

/-- `PostgresProvider.__init_connection`: reads `self.authentication_config`
(`AttributeError` if it was never set), calls `psycopg2.connect`, stores the
new handle in `self.conn`, and returns it.  On a connect failure the error
propagates before `self.conn` is assigned. -/
def PostgresProvider.initConnection (self : PostgresProvider) (w : DBWorld) :
    Except PyError (ConnState × PostgresProvider) :=
  match self.authentication_config with
  | none => .error (.attributeError "authentication_config is not set")
  | some ac =>
    match w.connect ac with
    | .error e => .error (.operationalError e)
    | .ok _ =>
      let conn : ConnState := { isClosed := false, commitCount := 0 }
      .ok (conn, { self with conn := some conn })

/-- The keyword arguments of a `query`/`notify` call; only the `"query"` key
is read (`kwargs.get("query")`, `none` when the key is absent). -/
structure Kwargs where
  query : Option String
  deriving DecidableEq, Repr

/-- `PostgresProvider.query`: checks `if not query` (absent or empty string
raises `ValueError` before anything else), opens a connection via
`__init_connection`, executes the SQL, fetches all rows, closes the cursor
and the connection inside the `try` block, and closes the connection again in
the `finally` block (a no-op when already closed).  On an execution error the
`finally` block still closes the connection and the error propagates.
Returns `list(results)`, the fetched rows unchanged.  The local `conn` and
`self.conn` alias the same object, so the returned adapter's `conn` field
holds the final state of the connection opened by this call. -/
def PostgresProvider.query (self : PostgresProvider) (w : DBWorld)
    (kwargs : Kwargs) : Except PyError (List Row) × PostgresProvider :=
  match kwargs.query with
  | none => (.error (.valueError "Query is required"), self)
  | some q =>
    if q.isEmpty then (.error (.valueError "Query is required"), self)
    else
      match self.initConnection w with
      | .error e => (.error e, self)
      | .ok (conn, self1) =>
        match w.execute q with
        | .error e =>
          let conn1 := conn.close
          (.error (.operationalError e), { self1 with conn := some conn1 })
        | .ok results =>
          let conn1 := conn.close
          let conn2 := conn1.close
          (.ok results, { self1 with conn := some conn2 })

/-- `PostgresProvider.notify`: same precondition check and connection
lifecycle as `query`, but after executing the SQL it calls `conn.commit()`
(the connection is still open at that point) and returns no value; no rows
are fetched.  The `finally` block closes the connection on every path. -/
def PostgresProvider.notify (self : PostgresProvider) (w : DBWorld)
    (kwargs : Kwargs) : Except PyError Unit × PostgresProvider :=
  match kwargs.query with
  | none => (.error (.valueError "Query is required"), self)
  | some q =>
    if q.isEmpty then (.error (.valueError "Query is required"), self)
    else
      match self.initConnection w with
      | .error e => (.error e, self)
      | .ok (conn, self1) =>
        match w.execute q with
        | .error e =>
          let conn1 := conn.close
          (.error (.operationalError e), { self1 with conn := some conn1 })
        | .ok _results =>
          match conn.commit with
          | .error e =>
            let conn1 := conn.close
            (.error e, { self1 with conn := some conn1 })
          | .ok conn1 =>
            let conn2 := conn1.close
            let conn3 := conn2.close
            (.ok (), { self1 with conn := some conn3 })

/-- `PostgresProvider.dispose`: `try: self.conn.close() except Exception:
log`.  The `try` body raises `AttributeError` when `self.conn` is `None`;
any exception from the body is caught and logged, so `dispose` itself always
returns normally. -/
def PostgresProvider.dispose (self : PostgresProvider) :
    Except PyError Unit × PostgresProvider :=
  let body : Except PyError (Option ConnState) :=
    match self.conn with
    | none => .error (.attributeError "NoneType has no attribute close")
    | some c => .ok (some c.close)
  match body with
  | .error _ => (.ok (), self)
  | .ok c => (.ok (), { self with conn := c })

/-! Concrete fixtures used by the witness theorems. -/

/-- A fully populated authentication mapping. -/
def sampleMapping : AuthMapping :=
  { username := some "u", password := some "p", host := some "localhost",
    database := some (some "db"), port := none }

/-- The auth config produced from `sampleMapping`. -/
def sampleAC : PostgresProviderAuthConfig :=
  { username := "u", password := "p", host := "localhost",
    database := some "db", port := some "5432" }

/-- A configured adapter, as after `construct` plus `validate_config`. -/
def sampleProvider : PostgresProvider :=
  { provider_id := "postgres-prod", config := sampleMapping,
    authentication_config := some sampleAC, conn := none }

/-- A world where connecting succeeds and every statement returns one row. -/
def goodWorld : DBWorld :=
  { connect := fun _ => .ok (),
    execute := fun _ => .ok [["1"]] }

/-- A world where connecting succeeds and every statement returns no rows. -/
def emptyWorld : DBWorld :=
  { connect := fun _ => .ok (),
    execute := fun _ => .ok [] }

/-- A world where connecting succeeds but executing any statement fails. -/
def failWorld : DBWorld :=
  { connect := fun _ => .ok (),
    execute := fun _ => .error "bad sql" }

/-! Claim theorems. -/

/-- C1: for every `query` or `notify` call that gets past the SQL-string
precondition and actually opens a connection (the adapter is configured and
`connect` succeeds), the connection opened by that call is closed before the
call returns, on the success path and on the execution-failure path alike:
the handle the adapter holds afterwards is a closed connection. -/
theorem query_notify_close_connection
    (self : PostgresProvider) (w : DBWorld) (kwargs : Kwargs) (q : String)
    (ac : PostgresProviderAuthConfig)
    (hq : kwargs.query = some q) (hne : q.isEmpty = false)
    (hac : self.authentication_config = some ac)
    (hconn : w.connect ac = .ok ()) :
    (∃ c, (self.query w kwargs).snd.conn = some c ∧ c.isClosed = true) ∧
    (∃ c, (self.notify w kwargs).snd.conn = some c ∧ c.isClosed = true) := by
  rcases hE : w.execute q with e | rows <;>
    simp [PostgresProvider.query, PostgresProvider.notify,
      PostgresProvider.initConnection, hq, hne, hac, hconn, hE,
      ConnState.close, ConnState.commit]

/-- C1 witness: a concrete configured adapter and world. -/
theorem query_notify_close_connection_witness :
    (∃ c, (sampleProvider.query goodWorld ⟨some "select 1"⟩).snd.conn
        = some c ∧ c.isClosed = true) ∧
    (∃ c, (sampleProvider.notify goodWorld ⟨some "select 1"⟩).snd.conn
        = some c ∧ c.isClosed = true) :=
  query_notify_close_connection sampleProvider goodWorld ⟨some "select 1"⟩
    "select 1" sampleAC rfl rfl rfl rfl

/-- C2: a `query` or `notify` call whose `query` argument is absent or the
empty string fails with `ValueError "Query is required"`, and its outcome is
independent of the world oracle: no connection and no network I/O is
attempted. -/
theorem empty_query_fails_without_io
    (self : PostgresProvider) (w w' : DBWorld) (kwargs : Kwargs)
    (h : kwargs.query = none ∨ kwargs.query = some "") :
    (self.query w kwargs).fst = .error (.valueError "Query is required") ∧
    (self.notify w kwargs).fst = .error (.valueError "Query is required") ∧
    self.query w kwargs = self.query w' kwargs ∧
    self.notify w kwargs = self.notify w' kwargs := by
  have he : "".isEmpty = true := rfl
  rcases h with h | h <;>
    simp [PostgresProvider.query, PostgresProvider.notify, h, he]

/-- C2 witness: absent and empty `query` arguments on a concrete adapter,
across two different worlds. -/
theorem empty_query_fails_without_io_witness :
    (sampleProvider.query goodWorld ⟨some ""⟩).fst
      = .error (.valueError "Query is required") ∧
    (sampleProvider.notify goodWorld ⟨some ""⟩).fst
      = .error (.valueError "Query is required") ∧
    sampleProvider.query goodWorld ⟨some ""⟩
      = sampleProvider.query failWorld ⟨some ""⟩ ∧
    sampleProvider.notify goodWorld ⟨some ""⟩
      = sampleProvider.notify failWorld ⟨some ""⟩ :=
  empty_query_fails_without_io sampleProvider goodWorld failWorld ⟨some ""⟩
    (Or.inr rfl)

/-- C3 counterexample: the claim says validation fails when a required field
is present but empty; in the code, a mapping whose `username`, `password`
and `host` are all the empty string validates successfully — pydantic checks
presence and type, not non-emptiness. -/
theorem empty_required_fields_accepted :
    PostgresProviderAuthConfig.ofMapping
      { username := some "", password := some "", host := some "",
        database := some none, port := none }
      = .ok { username := "", password := "", host := "",
              database := none, port := some "5432" } := rfl

/-- C3 amended: validation checks only that the keys are present, never that
the values are non-empty: any mapping supplying `username`, `password`,
`host` and `database` validates successfully, with the values (empty or not)
stored verbatim and the port defaulted. -/
theorem presence_suffices_for_validation
    (u p h : String) (d : Option String) (pt : Option (Option String)) :
    PostgresProviderAuthConfig.ofMapping
      { username := some u, password := some p, host := some h,
        database := some d, port := pt }
      = .ok { username := u, password := p, host := h, database := d,
              port := pt.getD (some "5432") } := rfl

/-- C4: the `database` field of the dataclass is declared with
`metadata={"required": False}` but its `dataclasses.field` call has no
`default`, so the generated constructor requires it: a mapping that supplies
`username`, `password` and `host` but omits the `database` key fails
validation with a `TypeError` instead of succeeding with `database = None`. -/
theorem omitted_database_key_rejected :
    PostgresProviderAuthConfig.ofMapping
      { username := some "u", password := some "p", host := some "localhost",
        database := none, port := none }
      = .error (.typeError "__init__ missing required positional arguments")
      := rfl

/-- C5: on a successful call, `notify` returns no value and performs exactly
one commit on its connection, while `query` on the same inputs performs no
commit; precondition and lifecycle are otherwise those of `query`. -/
theorem notify_commits_once_query_never
    (self : PostgresProvider) (w : DBWorld) (kwargs : Kwargs) (q : String)
    (ac : PostgresProviderAuthConfig) (rows : List Row)
    (hq : kwargs.query = some q) (hne : q.isEmpty = false)
    (hac : self.authentication_config = some ac)
    (hconn : w.connect ac = .ok ())
    (hexec : w.execute q = .ok rows) :
    (self.notify w kwargs).fst = .ok () ∧
    (∃ c, (self.notify w kwargs).snd.conn = some c ∧ c.commitCount = 1) ∧
    (∃ c, (self.query w kwargs).snd.conn = some c ∧ c.commitCount = 0) := by
  simp [PostgresProvider.query, PostgresProvider.notify,
    PostgresProvider.initConnection, hq, hne, hac, hconn, hexec,
    ConnState.close, ConnState.commit]

/-- C5 witness: a concrete successful call. -/
theorem notify_commits_once_query_never_witness :
    (sampleProvider.notify goodWorld ⟨some "insert into t values (1)"⟩).fst
      = .ok () ∧
    (∃ c, (sampleProvider.notify goodWorld
        ⟨some "insert into t values (1)"⟩).snd.conn
      = some c ∧ c.commitCount = 1) ∧
    (∃ c, (sampleProvider.query goodWorld
        ⟨some "insert into t values (1)"⟩).snd.conn
      = some c ∧ c.commitCount = 0) :=
  notify_commits_once_query_never sampleProvider goodWorld
    ⟨some "insert into t values (1)"⟩ "insert into t values (1)" sampleAC
    [["1"]] rfl rfl rfl rfl rfl

/-- C6: a configuration mapping missing any of the required keys `username`,
`password` or `host` fails `validate_config`; `validate_config` consults no
`DBWorld`, so the failure surfaces before any network activity. -/
theorem missing_required_key_fails
    (self : PostgresProvider)
    (h : self.config.username = none ∨ self.config.password = none ∨
         self.config.host = none) :
    ∃ e, self.validate_config = .error e := by
  unfold PostgresProvider.validate_config PostgresProviderAuthConfig.ofMapping
  rcases h with h | h | h <;> rw [h] <;>
    rcases self.config.username with _ | u <;>
    rcases self.config.password with _ | p <;>
    rcases self.config.host with _ | hst <;>
    rcases self.config.database with _ | d <;>
    simp

/-- C6 witness: a mapping missing the `host` key. -/
theorem missing_required_key_fails_witness :
    ∃ e, (PostgresProvider.construct "postgres-prod"
      { username := some "u", password := some "p", host := none,
        database := some none, port := none }).validate_config = .error e :=
  missing_required_key_fails
    (PostgresProvider.construct "postgres-prod"
      { username := some "u", password := some "p", host := none,
        database := some none, port := none })
    (Or.inr (Or.inr rfl))

/-- C7: on a successful call, `query` returns exactly the row list the
server produced for the statement — the full set, in the server's row order,
each row the server's tuple in column order, with no reordering, pagination
or size limit; an empty result set yields the empty list. -/
theorem query_returns_all_rows
    (self : PostgresProvider) (w : DBWorld) (kwargs : Kwargs) (q : String)
    (ac : PostgresProviderAuthConfig) (rows : List Row)
    (hq : kwargs.query = some q) (hne : q.isEmpty = false)
    (hac : self.authentication_config = some ac)
    (hconn : w.connect ac = .ok ())
    (hexec : w.execute q = .ok rows) :
    (self.query w kwargs).fst = .ok rows := by
  simp [PostgresProvider.query, PostgresProvider.initConnection,
    hq, hne, hac, hconn, hexec]

/-- C7 witness: a one-row result set and an empty result set. -/
theorem query_returns_all_rows_witness :
    (sampleProvider.query goodWorld ⟨some "select 1"⟩).fst = .ok [["1"]] ∧
    (sampleProvider.query emptyWorld ⟨some "select 1"⟩).fst = .ok [] :=
  ⟨query_returns_all_rows sampleProvider goodWorld ⟨some "select 1"⟩
      "select 1" sampleAC [["1"]] rfl rfl rfl rfl rfl,
    query_returns_all_rows sampleProvider emptyWorld ⟨some "select 1"⟩
      "select 1" sampleAC [] rfl rfl rfl rfl rfl⟩

/-- C8: `dispose` never raises, whatever the adapter state: when `self.conn`
is `None` the `close()` call raises `AttributeError`, which — like any other
failure of the `try` body — is caught and logged, and `dispose` returns
normally. -/
theorem dispose_never_raises (self : PostgresProvider) :
    (self.dispose).fst = .ok () := by
  unfold PostgresProvider.dispose
  rcases self.conn with _ | c <;> simp

/-- C9: whenever the configuration mapping omits the `port` key and
validation succeeds, the resulting auth config carries the default port
`"5432"`. -/
theorem port_defaults_when_omitted
    (m : AuthMapping) (cfg : PostgresProviderAuthConfig)
    (hport : m.port = none)
    (hok : PostgresProviderAuthConfig.ofMapping m = .ok cfg) :
    cfg.port = some "5432" := by
  obtain ⟨mu, mp, mh, md, mpt⟩ := m
  dsimp only at hport
  subst hport
  unfold PostgresProviderAuthConfig.ofMapping at hok
  rcases mu with _ | u <;> rcases mp with _ | p <;> rcases mh with _ | h <;>
    rcases md with _ | d <;> simp_all
  simp [← hok]

/-- C9 witness: `sampleMapping` omits `port` and validates to `sampleAC`. -/
theorem port_defaults_when_omitted_witness : sampleAC.port = some "5432" :=
  port_defaults_when_omitted sampleMapping sampleAC rfl rfl

/-- C10: a `query` or `notify` call that fails the `if not query`
precondition raises before `__init_connection` runs, so the adapter — in
particular its stored `conn` field — is left exactly as it was. -/
theorem precondition_failure_leaves_state_unchanged
    (self : PostgresProvider) (w : DBWorld) (kwargs : Kwargs)
    (h : kwargs.query = none ∨ kwargs.query = some "") :
    (self.query w kwargs).snd = self ∧ (self.notify w kwargs).snd = self := by
  have he : "".isEmpty = true := rfl
  rcases h with h | h <;>
    simp [PostgresProvider.query, PostgresProvider.notify, h, he]

/-- C10 witness: an adapter holding a prior connection handle is untouched
by a call with an absent `query` argument. -/
theorem precondition_failure_leaves_state_unchanged_witness :
    (({ sampleProvider with
        conn := some { isClosed := true, commitCount := 0 } }).query
      goodWorld ⟨none⟩).snd
      = { sampleProvider with
          conn := some { isClosed := true, commitCount := 0 } } ∧
    (({ sampleProvider with
        conn := some { isClosed := true, commitCount := 0 } }).notify
      goodWorld ⟨none⟩).snd
      = { sampleProvider with
          conn := some { isClosed := true, commitCount := 0 } } :=
  precondition_failure_leaves_state_unchanged
    { sampleProvider with conn := some { isClosed := true, commitCount := 0 } }
    goodWorld ⟨none⟩ (Or.inl rfl)
